import Mathlib

/-!
Verification development for the hydrogen gas cooler sizing tool
(`src/app.py`).  The calculation chain inside the
"Run Hydrogen Cooler Design" button handler (lines 113-169) is embedded
shallowly: Python floats become exact reals, every plain-float division
that can raise `ZeroDivisionError` becomes an explicit guard producing
`CalcError.zeroDivision` (the top-level `except` at lines 228-230 turns any
such exception into the "Calculation Error" message, so `Except.error`
models "error reported, no result shown"), and the numpy operations that
silently produce non-finite values instead of raising (`np.log` of a
non-positive argument, `np.float64` division by zero, `np.sqrt` of a
negative argument) are modelled by the `PyFloat` type below.

The CoolProp property provider (`PropsSI`, lines 126-130 and 137) is an
external collaborator; following the spec it is treated as a fixed function
of its arguments, so its outputs at the two state points used by the code
are parameters of the embedding (`FluidProps` for hydrogen at hot-inlet
conditions, `cw` for the water specific heat at cold-inlet conditions).
-/

open Classical

namespace HGCooler

/-- Result of one Python float operation that numpy would complete without
raising: either a finite value, NaN, or a signed infinity.  `np.log` of a
negative number is `nan`, `np.log 0` is `-inf`, a finite `np.float64`
divided by `0.0` is a signed infinity (or `nan` for `0/0`), and `np.sqrt`
of a negative number is `nan`; none of these raise, unlike plain-float
`ZeroDivisionError`. -/
inductive PyFloat where
  | fin (x : ℝ)
  | nan
  | inf
  | ninf

/-- The single error class the embedding needs: a plain Python float
division by zero (`ZeroDivisionError`), caught by the top-level handler at
lines 228-230 of `src/app.py`. -/
inductive CalcError where
  | zeroDivision

/-- The form inputs collected at lines 35-105 of `src/app.py`.
`m_dot_cold_in` is the widget shown only when `auto_water` is off
(lines 76-81); `passes` comes from the selectbox over `[1, 2, 4]`
(line 105), kept as an unconstrained integer here since the code places no
other constraint on it. -/
structure ProcessInputs where
  flow_hot_nm3_hr : ℝ
  T_hot_in_C : ℝ
  T_hot_out_C : ℝ
  P_hot_bar : ℝ
  T_cold_in_C : ℝ
  T_cold_out_C : ℝ
  P_cold_bar : ℝ
  auto_water : Bool
  m_dot_cold_in : ℝ
  D_i : ℝ
  t_wall : ℝ
  velocity_target : ℝ
  passes : ℤ

/-- Hydrogen properties returned by `PropsSI` at hot-inlet temperature and
pressure (lines 126-130 of `src/app.py`): density, specific heat,
viscosity, thermal conductivity, Prandtl number. -/
structure FluidProps where
  rho : ℝ
  Cp : ℝ
  mu : ℝ
  k : ℝ
  Pr : ℝ

/-- The seven quantities displayed at lines 177-183 of `src/app.py`.
`A_required` and `D_shell` are `PyFloat` because the numpy steps producing
them can yield NaN or an infinity without raising. -/
structure SizingResult where
  Q : ℝ
  m_dot_cold : ℝ
  U : ℝ
  A_required : PyFloat
  N_total : ℤ
  D_shell : PyFloat
  velocity : ℝ

/-- Line 116: `T_hot_in = T_hot_in_C + 273.15`. -/
noncomputable def tHotIn (i : ProcessInputs) : ℝ := i.T_hot_in_C + 273.15

/-- Line 117: `T_hot_out = T_hot_out_C + 273.15`. -/
noncomputable def tHotOut (i : ProcessInputs) : ℝ := i.T_hot_out_C + 273.15

/-- Line 118: `T_cold_in = T_cold_in_C + 273.15`. -/
noncomputable def tColdIn (i : ProcessInputs) : ℝ := i.T_cold_in_C + 273.15

/-- Line 119: `T_cold_out = T_cold_out_C + 273.15`. -/
noncomputable def tColdOut (i : ProcessInputs) : ℝ := i.T_cold_out_C + 273.15

/-- Line 121: `P_hot = P_hot_bar * 1e5` (only fed to the property
provider, which is a parameter here; kept for completeness). -/
noncomputable def pHot (i : ProcessInputs) : ℝ := i.P_hot_bar * 100000

/-- Line 122: `P_cold = P_cold_bar * 1e5` (only fed to the property
provider; kept for completeness). -/
noncomputable def pCold (i : ProcessInputs) : ℝ := i.P_cold_bar * 100000

/-- Line 123: `flow_hot_m3_s = flow_hot_nm3_hr / 3600`. -/
noncomputable def flowM3s (i : ProcessInputs) : ℝ := i.flow_hot_nm3_hr / 3600

/-- Line 132: `m_dot_h = rho_h * flow_hot_m3_s`. -/
noncomputable def massFlowH (i : ProcessInputs) (p : FluidProps) : ℝ :=
  p.rho * flowM3s i

/-- Line 133: `Q = m_dot_h * Cp_h * (T_hot_in - T_hot_out)`. -/
noncomputable def heatDutyQ (i : ProcessInputs) (p : FluidProps) : ℝ :=
  massFlowH i p * p.Cp * (tHotIn i - tHotOut i)

/-- The denominator of line 138, `Cp_water * (T_cold_out - T_cold_in)`;
`cw` is the water specific heat returned by `PropsSI` at line 137. -/
noncomputable def cwDenom (i : ProcessInputs) (cw : ℝ) : ℝ :=
  cw * (tColdOut i - tColdIn i)

/-- Lines 136-138 (together with the widget at lines 76-81): the cooling
water mass flow actually used, `Q / (Cp_water * (T_cold_out - T_cold_in))`
when `auto_water` is checked, the user-entered value otherwise. -/
noncomputable def mDotCold (i : ProcessInputs) (p : FluidProps) (cw : ℝ) : ℝ :=
  if i.auto_water = true then heatDutyQ i p / cwDenom i cw else i.m_dot_cold_in

/-- Line 141: `A_single = np.pi * D_i**2 / 4`. -/
noncomputable def A_single (i : ProcessInputs) : ℝ :=
  Real.pi * i.D_i ^ 2 / 4

/-- The continuous tube requirement inside line 142's ceiling:
`m_dot_h / (rho_h * velocity_target * A_single)`. -/
noncomputable def rawTubes (i : ProcessInputs) (p : FluidProps) : ℝ :=
  massFlowH i p / (p.rho * i.velocity_target * A_single i)

/-- Line 142: `N_per_pass = int(np.ceil(...))`.  `np.ceil` yields an
integral float and `int` converts it exactly, so this is the ceiling. -/
noncomputable def tubesPerPass (i : ProcessInputs) (p : FluidProps) : ℤ :=
  ⌈rawTubes i p⌉

/-- Line 143: `N_total = N_per_pass * passes`. -/
noncomputable def tubesTotal (i : ProcessInputs) (p : FluidProps) : ℤ :=
  tubesPerPass i p * i.passes

/-- Line 144: `velocity = m_dot_h / (rho_h * N_per_pass * A_single)`. -/
noncomputable def tubeVelocity (i : ProcessInputs) (p : FluidProps) : ℝ :=
  massFlowH i p / (p.rho * (tubesPerPass i p : ℝ) * A_single i)

/-- Line 147: `Re_h = rho_h * velocity * D_i / mu_h`. -/
noncomputable def reynolds (i : ProcessInputs) (p : FluidProps) : ℝ :=
  p.rho * tubeVelocity i p * i.D_i / p.mu

/-- Line 148: `Nu_h = 0.023 * Re_h**0.8 * Pr_h**0.4` (real powers; the
code's complex-valued fallback for a negative base is never reached in any
run examined below, where the Reynolds number is positive). -/
noncomputable def nusselt (i : ProcessInputs) (p : FluidProps) : ℝ :=
  0.023 * reynolds i p ^ (0.8 : ℝ) * p.Pr ^ (0.4 : ℝ)

/-- Line 149: `h_hot = Nu_h * k_h / D_i`. -/
noncomputable def hHot (i : ProcessInputs) (p : FluidProps) : ℝ :=
  nusselt i p * p.k / i.D_i

/-- Line 151: `h_shell = 3000`. -/
noncomputable def h_shell : ℝ := 3000

/-- Line 153: `Rf_i = 0.0001`. -/
noncomputable def Rf_i : ℝ := 0.0001

/-- Line 154: `Rf_o = 0.0002`. -/
noncomputable def Rf_o : ℝ := 0.0002

/-- Line 155: `k_tube = 16`. -/
noncomputable def k_tube : ℝ := 16

/-- The sum inside line 157's reciprocal:
`1/h_hot + Rf_i + t_wall/k_tube + 1/h_shell + Rf_o`. -/
noncomputable def Rsum (i : ProcessInputs) (p : FluidProps) : ℝ :=
  1 / hHot i p + Rf_i + i.t_wall / k_tube + 1 / h_shell + Rf_o

/-- Line 157: `U = 1 / (1/h_hot + Rf_i + t_wall/k_tube + 1/h_shell + Rf_o)`. -/
noncomputable def Uval (i : ProcessInputs) (p : FluidProps) : ℝ :=
  1 / Rsum i p

/-- Line 160: `deltaT1 = T_hot_in - T_cold_out`. -/
noncomputable def deltaT1 (i : ProcessInputs) : ℝ := tHotIn i - tColdOut i

/-- Line 161: `deltaT2 = T_hot_out - T_cold_in`. -/
noncomputable def deltaT2 (i : ProcessInputs) : ℝ := tHotOut i - tColdIn i

/-- Line 162: `LMTD = (deltaT1 - deltaT2) / np.log(deltaT1/deltaT2)`,
assuming `deltaT2` is nonzero (otherwise the plain-float division inside
the log argument raises, which `size` below models as an error).  numpy
semantics of the remaining cases: for a negative ratio `np.log` returns
NaN (it warns, it does not raise) and dividing by NaN gives NaN; for a
ratio of exactly 1 the log is `0.0` and the numerator `deltaT1 - deltaT2`
is also 0, so the `np.float64` division is `0/0 = NaN` (again no
exception); for a ratio of exactly 0 the log is `-inf` and a finite
numerator divided by an infinity is 0. -/
noncomputable def lmtd (i : ProcessInputs) : PyFloat :=
  if deltaT1 i / deltaT2 i < 0 ∨ deltaT1 i / deltaT2 i = 1 then PyFloat.nan
  else if deltaT1 i / deltaT2 i = 0 then PyFloat.fin 0
  else PyFloat.fin ((deltaT1 i - deltaT2 i) / Real.log (deltaT1 i / deltaT2 i))

/-- Line 164: `F = 1 if passes == 1 else 0.85`. -/
noncomputable def corrF (passes : ℤ) : ℝ :=
  if passes = 1 then 1 else 0.85

/-- Line 165: `A_required = Q/(U*F*LMTD)`.  Because `LMTD` is an
`np.float64`, this division never raises: NaN propagates, and a zero
denominator (reachable only through the `LMTD = 0.0` branch) yields a
signed infinity by the sign of the numerator, or NaN for `0/0` (the sign
convention of the zero denominator matches the `U*F > 0` situation, the
only one arising in the runs examined below). -/
noncomputable def aRequired (i : ProcessInputs) (p : FluidProps) : PyFloat :=
  match lmtd i with
  | PyFloat.nan => PyFloat.nan
  | PyFloat.inf => PyFloat.fin 0
  | PyFloat.ninf => PyFloat.fin 0
  | PyFloat.fin l =>
      if Uval i p * corrF i.passes * l = 0 then
        (if 0 < heatDutyQ i p then PyFloat.inf
         else if heatDutyQ i p < 0 then PyFloat.ninf
         else PyFloat.nan)
      else PyFloat.fin (heatDutyQ i p / (Uval i p * corrF i.passes * l))

/-- Line 167: `D_o = D_i + 2*t_wall`. -/
noncomputable def dOuter (i : ProcessInputs) : ℝ := i.D_i + 2 * i.t_wall

/-- Line 168: `K = 0.9`. -/
noncomputable def layoutK : ℝ := 0.9

/-- Line 169: `D_shell = D_o * np.sqrt(N_total/(0.785*K))`; `np.sqrt` of a
negative argument is NaN (warning, no exception). -/
noncomputable def dShellVal (i : ProcessInputs) (p : FluidProps) : PyFloat :=
  if ((tubesTotal i p : ℝ) / (0.785 * layoutK)) < 0 then PyFloat.nan
  else PyFloat.fin (dOuter i * Real.sqrt ((tubesTotal i p : ℝ) / (0.785 * layoutK)))

/-- The record of the seven displayed quantities (lines 177-183). -/
noncomputable def sizeResult (i : ProcessInputs) (p : FluidProps) (cw : ℝ) : SizingResult :=
  { Q := heatDutyQ i p
    m_dot_cold := mDotCold i p cw
    U := Uval i p
    A_required := aRequired i p
    N_total := tubesTotal i p
    D_shell := dShellVal i p
    velocity := tubeVelocity i p }

/-- The sizing computation of lines 113-169.  Each guard is a plain-float
division of the source that raises `ZeroDivisionError` when its
denominator is zero, in the order Python evaluates them: line 138 (only on
the auto-water branch), line 142, line 144, line 147 (`mu`), line 149
(`D_i`), line 157 (`1/h_hot`, then the outer reciprocal), and the log
argument of line 162.  The top-level `except` (lines 228-230) catches the
exception and reports "Calculation Error", which `Except.error` models. -/
noncomputable def size (i : ProcessInputs) (p : FluidProps) (cw : ℝ) :
    Except CalcError SizingResult :=
  if i.auto_water = true ∧ cwDenom i cw = 0 then Except.error CalcError.zeroDivision
  else if p.rho * i.velocity_target * A_single i = 0 then Except.error CalcError.zeroDivision
  else if p.rho * (tubesPerPass i p : ℝ) * A_single i = 0 then Except.error CalcError.zeroDivision
  else if p.mu = 0 then Except.error CalcError.zeroDivision
  else if i.D_i = 0 then Except.error CalcError.zeroDivision
  else if hHot i p = 0 then Except.error CalcError.zeroDivision
  else if Rsum i p = 0 then Except.error CalcError.zeroDivision
  else if deltaT2 i = 0 then Except.error CalcError.zeroDivision
  else Except.ok (sizeResult i p cw)

/-- Inverting a successful run: the result is `sizeResult` and the
auto-water guard of line 138 did not fire. -/
theorem size_ok_inv {i : ProcessInputs} {p : FluidProps} {cw : ℝ} {r : SizingResult}
    (h : size i p cw = Except.ok r) :
    r = sizeResult i p cw ∧ ¬(i.auto_water = true ∧ cwDenom i cw = 0) := by
  unfold size at h
  split_ifs at h with h1 h2 h3 h4 h5 h6 h7 h8
  all_goals first
    | exact Except.noConfusion h
    | exact ⟨(Except.ok.inj h).symm, h1⟩

/-- Positivity of line 141's single-tube area for a nonzero bore. -/
theorem A_single_pos (i : ProcessInputs) (hD : 0 < i.D_i) : 0 < A_single i := by
  unfold A_single
  exact div_pos (mul_pos Real.pi_pos (pow_pos hD 2)) (by norm_num)

/-- Positivity of the raw continuous tube requirement. -/
theorem rawTubes_pos (i : ProcessInputs) (p : FluidProps)
    (hm : 0 < massFlowH i p) (hrho : 0 < p.rho)
    (hvt : 0 < i.velocity_target) (hD : 0 < i.D_i) : 0 < rawTubes i p :=
  div_pos hm (mul_pos (mul_pos hrho hvt) (A_single_pos i hD))

/-- A positive raw requirement rounds up to a positive tube count. -/
theorem tubesPerPass_pos (i : ProcessInputs) (p : FluidProps)
    (hm : 0 < massFlowH i p) (hrho : 0 < p.rho)
    (hvt : 0 < i.velocity_target) (hD : 0 < i.D_i) : 0 < tubesPerPass i p :=
  Int.ceil_pos.mpr (rawTubes_pos i p hm hrho hvt hD)

/-- Positivity of the achieved velocity of line 144. -/
theorem tubeVelocity_pos (i : ProcessInputs) (p : FluidProps)
    (hm : 0 < massFlowH i p) (hrho : 0 < p.rho)
    (hvt : 0 < i.velocity_target) (hD : 0 < i.D_i) : 0 < tubeVelocity i p := by
  have hNr : (0 : ℝ) < (tubesPerPass i p : ℝ) := by
    exact_mod_cast tubesPerPass_pos i p hm hrho hvt hD
  exact div_pos hm (mul_pos (mul_pos hrho hNr) (A_single_pos i hD))

/-- Positivity of the hot-side film coefficient of line 149. -/
theorem hHot_pos (i : ProcessInputs) (p : FluidProps)
    (hm : 0 < massFlowH i p) (hrho : 0 < p.rho)
    (hvt : 0 < i.velocity_target) (hD : 0 < i.D_i)
    (hmu : 0 < p.mu) (hPr : 0 < p.Pr) (hk : 0 < p.k) : 0 < hHot i p := by
  have hRe : 0 < reynolds i p :=
    div_pos (mul_pos (mul_pos hrho (tubeVelocity_pos i p hm hrho hvt hD)) hD) hmu
  have hNu : 0 < nusselt i p := by
    unfold nusselt
    exact mul_pos (mul_pos (by norm_num) (Real.rpow_pos_of_pos hRe _))
      (Real.rpow_pos_of_pos hPr _)
  exact div_pos (mul_pos hNu hk) hD

/-- Positivity of the resistance sum of line 157. -/
theorem Rsum_pos (i : ProcessInputs) (p : FluidProps)
    (hm : 0 < massFlowH i p) (hrho : 0 < p.rho)
    (hvt : 0 < i.velocity_target) (hD : 0 < i.D_i)
    (hmu : 0 < p.mu) (hPr : 0 < p.Pr) (hk : 0 < p.k)
    (htw : 0 ≤ i.t_wall) : 0 < Rsum i p := by
  have h1 : 0 < 1 / hHot i p := one_div_pos.mpr (hHot_pos i p hm hrho hvt hD hmu hPr hk)
  have h2 : 0 ≤ i.t_wall / (16 : ℝ) := div_nonneg htw (by norm_num)
  unfold Rsum Rf_i Rf_o h_shell k_tube
  linarith

/-- Positivity of the overall coefficient of line 157. -/
theorem Uval_pos (i : ProcessInputs) (p : FluidProps)
    (hm : 0 < massFlowH i p) (hrho : 0 < p.rho)
    (hvt : 0 < i.velocity_target) (hD : 0 < i.D_i)
    (hmu : 0 < p.mu) (hPr : 0 < p.Pr) (hk : 0 < p.k)
    (htw : 0 ≤ i.t_wall) : 0 < Uval i p :=
  one_div_pos.mpr (Rsum_pos i p hm hrho hvt hD hmu hPr hk htw)

/-- Under the positivity conditions that hold at every input considered in
the theorems below, the run succeeds and returns `sizeResult`. -/
theorem size_ok_of_pos (i : ProcessInputs) (p : FluidProps) (cw : ℝ)
    (hrho : 0 < p.rho) (hvt : 0 < i.velocity_target) (hD : 0 < i.D_i)
    (hmu : 0 < p.mu) (hPr : 0 < p.Pr) (hk : 0 < p.k)
    (hm : 0 < massFlowH i p) (htw : 0 ≤ i.t_wall)
    (hcw : ¬(i.auto_water = true ∧ cwDenom i cw = 0))
    (hdt2 : deltaT2 i ≠ 0) :
    size i p cw = Except.ok (sizeResult i p cw) := by
  have hA : 0 < A_single i := A_single_pos i hD
  have hNr : (0 : ℝ) < (tubesPerPass i p : ℝ) := by
    exact_mod_cast tubesPerPass_pos i p hm hrho hvt hD
  unfold size
  rw [if_neg hcw, if_neg (mul_pos (mul_pos hrho hvt) hA).ne',
    if_neg (mul_pos (mul_pos hrho hNr) hA).ne', if_neg hmu.ne', if_neg hD.ne',
    if_neg (hHot_pos i p hm hrho hvt hD hmu hPr hk).ne',
    if_neg (Rsum_pos i p hm hrho hvt hD hmu hPr hk htw).ne', if_neg hdt2]

/-- Rounding the tube count up can only lower the per-tube velocity:
the pure inequality behind the velocity claim. -/
theorem tubeVelocity_le_target (i : ProcessInputs) (p : FluidProps)
    (hm : 0 < massFlowH i p) (hrho : 0 < p.rho)
    (hvt : 0 < i.velocity_target) (hD : 0 < i.D_i) :
    tubeVelocity i p ≤ i.velocity_target := by
  have hA : 0 < A_single i := by
    unfold A_single
    exact div_pos (mul_pos Real.pi_pos (pow_pos hD 2)) (by norm_num)
  have hraw : 0 < rawTubes i p :=
    div_pos hm (mul_pos (mul_pos hrho hvt) hA)
  have hN : 0 < tubesPerPass i p := Int.ceil_pos.mpr hraw
  have hNr : (0 : ℝ) < (tubesPerPass i p : ℝ) := by exact_mod_cast hN
  have hle : rawTubes i p ≤ (tubesPerPass i p : ℝ) := Int.le_ceil _
  unfold rawTubes at hle
  rw [div_le_iff₀ (mul_pos (mul_pos hrho hvt) hA)] at hle
  unfold tubeVelocity
  rw [div_le_iff₀ (mul_pos (mul_pos hrho hNr) hA)]
  calc massFlowH i p ≤ (tubesPerPass i p : ℝ) * (p.rho * i.velocity_target * A_single i) := hle
    _ = i.velocity_target * (p.rho * (tubesPerPass i p : ℝ) * A_single i) := by ring

/-- The default form values of `src/app.py` (lines 35-105), with the
auto-water box checked: flow 750 Nm3/hr, hot side 80 to 40 C at 16 bar,
cold side 35 to 40 C at 3 bar, tube bore 0.025 m, wall 0.002 m, target
velocity 9 m/s, 2 passes. -/
noncomputable def exInputs : ProcessInputs :=
  { flow_hot_nm3_hr := 750
    T_hot_in_C := 80
    T_hot_out_C := 40
    P_hot_bar := 16
    T_cold_in_C := 35
    T_cold_out_C := 40
    P_cold_bar := 3
    auto_water := true
    m_dot_cold_in := 7
    D_i := 0.025
    t_wall := 0.002
    velocity_target := 9
    passes := 2 }

/-- Representative hydrogen properties at the hot-inlet state point
(16 bar, 353 K), standing in for one fixed answer of the CoolProp
provider: density 1.2 kg/m3, specific heat 14300 J/kgK, viscosity
9e-6 Pa s, conductivity 0.18 W/mK, Prandtl number 0.7. -/
noncomputable def exProps : FluidProps :=
  { rho := 1.2
    Cp := 14300
    mu := 0.000009
    k := 0.18
    Pr := 0.7 }

/-- Water specific heat at the cold inlet, the provider's answer to the
query of line 137. -/
noncomputable def exCpWater : ℝ := 4180

/-- The default run succeeds and returns the `sizeResult` record. -/
theorem size_ex_ok :
    size exInputs exProps exCpWater = Except.ok (sizeResult exInputs exProps exCpWater) := by
  apply size_ok_of_pos
  · norm_num [exProps]
  · norm_num [exInputs]
  · norm_num [exInputs]
  · norm_num [exProps]
  · norm_num [exProps]
  · norm_num [exProps]
  · norm_num [massFlowH, flowM3s, exInputs, exProps]
  · norm_num [exInputs]
  · norm_num [cwDenom, tColdOut, tColdIn, exInputs, exCpWater]
  · norm_num [deltaT2, tHotOut, tColdIn, exInputs]

/-- C2: on every successful run the tubes-per-pass count is the ceiling of
the raw continuous requirement `m_dot_h / (rho * velocity_target * A_single)`
with `A_single = pi * D_i^2 / 4`, hence at least that raw value, and the
total tube count is tubes-per-pass times the number of passes. -/
theorem tube_count_is_ceiling (i : ProcessInputs) (p : FluidProps) (cw : ℝ)
    (r : SizingResult) (h : size i p cw = Except.ok r) :
    tubesPerPass i p =
      ⌈massFlowH i p / (p.rho * i.velocity_target * (Real.pi * i.D_i ^ 2 / 4))⌉ ∧
    massFlowH i p / (p.rho * i.velocity_target * (Real.pi * i.D_i ^ 2 / 4)) ≤
      (tubesPerPass i p : ℝ) ∧
    r.N_total = tubesPerPass i p * i.passes := by
  obtain ⟨hr, -⟩ := size_ok_inv h
  refine ⟨rfl, Int.le_ceil _, ?_⟩
  rw [hr]; rfl

/-- Witness for C2 at the default run. -/
theorem tube_count_is_ceiling_witness :
    size exInputs exProps exCpWater = Except.ok (sizeResult exInputs exProps exCpWater) ∧
    (tubesPerPass exInputs exProps =
      ⌈massFlowH exInputs exProps /
        (exProps.rho * exInputs.velocity_target * (Real.pi * exInputs.D_i ^ 2 / 4))⌉ ∧
    massFlowH exInputs exProps /
        (exProps.rho * exInputs.velocity_target * (Real.pi * exInputs.D_i ^ 2 / 4)) ≤
      (tubesPerPass exInputs exProps : ℝ) ∧
    (sizeResult exInputs exProps exCpWater).N_total =
      tubesPerPass exInputs exProps * exInputs.passes) :=
  ⟨size_ex_ok, tube_count_is_ceiling exInputs exProps exCpWater _ size_ex_ok⟩

/-- C3: on every successful run with positive mass flow, density, target
velocity and tube bore, the achieved tube velocity is at most the target
velocity, because the tube count was rounded up. -/
theorem achieved_velocity_le_target (i : ProcessInputs) (p : FluidProps) (cw : ℝ)
    (r : SizingResult) (h : size i p cw = Except.ok r)
    (hm : 0 < massFlowH i p) (hrho : 0 < p.rho)
    (hvt : 0 < i.velocity_target) (hD : 0 < i.D_i) :
    r.velocity ≤ i.velocity_target := by
  obtain ⟨hr, -⟩ := size_ok_inv h
  rw [hr]
  exact tubeVelocity_le_target i p hm hrho hvt hD

/-- Witness for C3 at the default run. -/
theorem achieved_velocity_le_target_witness :
    size exInputs exProps exCpWater = Except.ok (sizeResult exInputs exProps exCpWater) ∧
    0 < massFlowH exInputs exProps ∧ 0 < exProps.rho ∧
    0 < exInputs.velocity_target ∧ 0 < exInputs.D_i ∧
    (sizeResult exInputs exProps exCpWater).velocity ≤ exInputs.velocity_target :=
  ⟨size_ex_ok, by norm_num [massFlowH, flowM3s, exInputs, exProps],
    by norm_num [exProps], by norm_num [exInputs], by norm_num [exInputs],
    achieved_velocity_le_target exInputs exProps exCpWater _ size_ex_ok
      (by norm_num [massFlowH, flowM3s, exInputs, exProps])
      (by norm_num [exProps]) (by norm_num [exInputs]) (by norm_num [exInputs])⟩

/-- C4: on every successful run taken through the auto-water branch, the
computed cooling water flow satisfies the energy balance exactly:
`m_dot_cold * Cp_water * (T_cold_out - T_cold_in) = Q`, with `Q` the
hot-side duty `m_dot_h * Cp_h * (T_hot_in - T_hot_out)`. -/
theorem auto_water_energy_balance (i : ProcessInputs) (p : FluidProps) (cw : ℝ)
    (r : SizingResult) (ha : i.auto_water = true) (h : size i p cw = Except.ok r) :
    r.m_dot_cold * cw * (tColdOut i - tColdIn i) = r.Q ∧
    r.Q = massFlowH i p * p.Cp * (tHotIn i - tHotOut i) := by
  obtain ⟨hr, hcond⟩ := size_ok_inv h
  have hz : cwDenom i cw ≠ 0 := fun hz => hcond ⟨ha, hz⟩
  subst hr
  constructor
  · show mDotCold i p cw * cw * (tColdOut i - tColdIn i) = heatDutyQ i p
    unfold mDotCold
    rw [if_pos ha, mul_assoc]
    rw [show cw * (tColdOut i - tColdIn i) = cwDenom i cw from rfl]
    exact div_mul_cancel₀ _ hz
  · rfl

/-- Witness for C4 at the default run (auto-water checked). -/
theorem auto_water_energy_balance_witness :
    exInputs.auto_water = true ∧
    size exInputs exProps exCpWater = Except.ok (sizeResult exInputs exProps exCpWater) ∧
    ((sizeResult exInputs exProps exCpWater).m_dot_cold * exCpWater *
        (tColdOut exInputs - tColdIn exInputs) = (sizeResult exInputs exProps exCpWater).Q ∧
      (sizeResult exInputs exProps exCpWater).Q =
        massFlowH exInputs exProps * exProps.Cp * (tHotIn exInputs - tHotOut exInputs)) :=
  ⟨rfl, size_ex_ok,
    auto_water_energy_balance exInputs exProps exCpWater _ rfl size_ex_ok⟩

/-- C5: on every successful run the LMTD correction factor is exactly 1
for a single pass and exactly 0.85 for 2 or 4 passes. -/
theorem correction_factor_by_passes (i : ProcessInputs) (p : FluidProps) (cw : ℝ)
    (r : SizingResult) (_h : size i p cw = Except.ok r) :
    (i.passes = 1 → corrF i.passes = 1) ∧
    ((i.passes = 2 ∨ i.passes = 4) → corrF i.passes = 0.85) := by
  refine ⟨fun h1 => ?_, fun h2 => ?_⟩
  · rw [h1]; unfold corrF; rw [if_pos rfl]
  · unfold corrF
    rcases h2 with h2 | h2 <;> rw [h2] <;>
      rw [if_neg (by norm_num)]

/-- Witness for C5 at the default run, which selects 2 passes. -/
theorem correction_factor_by_passes_witness :
    size exInputs exProps exCpWater = Except.ok (sizeResult exInputs exProps exCpWater) ∧
    (exInputs.passes = 2 ∨ exInputs.passes = 4) ∧ corrF exInputs.passes = 0.85 :=
  ⟨size_ex_ok, Or.inl rfl,
    (correction_factor_by_passes exInputs exProps exCpWater _ size_ex_ok).2 (Or.inl rfl)⟩

/-- C6: the sizing computation is deterministic: two successful runs on
the same inputs and the same provider answers agree on all seven result
fields. -/
theorem size_deterministic (i : ProcessInputs) (p : FluidProps) (cw : ℝ)
    (r₁ r₂ : SizingResult)
    (h₁ : size i p cw = Except.ok r₁) (h₂ : size i p cw = Except.ok r₂) :
    r₁.Q = r₂.Q ∧ r₁.m_dot_cold = r₂.m_dot_cold ∧ r₁.U = r₂.U ∧
    r₁.A_required = r₂.A_required ∧ r₁.N_total = r₂.N_total ∧
    r₁.D_shell = r₂.D_shell ∧ r₁.velocity = r₂.velocity := by
  rw [h₁] at h₂
  have h : r₁ = r₂ := Except.ok.inj h₂
  subst h
  exact ⟨rfl, rfl, rfl, rfl, rfl, rfl, rfl⟩

/-- Witness for C6: the default run compared with itself. -/
theorem size_deterministic_witness :
    size exInputs exProps exCpWater = Except.ok (sizeResult exInputs exProps exCpWater) ∧
    ((sizeResult exInputs exProps exCpWater).Q = (sizeResult exInputs exProps exCpWater).Q ∧
      (sizeResult exInputs exProps exCpWater).m_dot_cold =
        (sizeResult exInputs exProps exCpWater).m_dot_cold ∧
      (sizeResult exInputs exProps exCpWater).U = (sizeResult exInputs exProps exCpWater).U ∧
      (sizeResult exInputs exProps exCpWater).A_required =
        (sizeResult exInputs exProps exCpWater).A_required ∧
      (sizeResult exInputs exProps exCpWater).N_total =
        (sizeResult exInputs exProps exCpWater).N_total ∧
      (sizeResult exInputs exProps exCpWater).D_shell =
        (sizeResult exInputs exProps exCpWater).D_shell ∧
      (sizeResult exInputs exProps exCpWater).velocity =
        (sizeResult exInputs exProps exCpWater).velocity) :=
  ⟨size_ex_ok,
    size_deterministic exInputs exProps exCpWater _ _ size_ex_ok size_ex_ok⟩

/-- An input with equal terminal temperature differences: hot side 80 to
60 C, cold side 20 to 40 C, so deltaT1 = deltaT2 = 40 K. -/
noncomputable def c1Inputs : ProcessInputs :=
  { exInputs with T_hot_out_C := 60, T_cold_in_C := 20 }

/-- C1 (evidence for the divergence): at an input with
deltaT1 = deltaT2 = 40, the sizing computation does NOT reach the error
branch; it completes and returns a result whose required area is NaN,
because `np.log(1.0) = 0.0` makes line 162 an `np.float64` division
`0.0/0.0`, which warns and yields NaN instead of raising. -/
theorem sizing_nan_not_error_on_degenerate_lmtd :
    deltaT1 c1Inputs = deltaT2 c1Inputs ∧
    ∃ r, size c1Inputs exProps exCpWater = Except.ok r ∧ r.A_required = PyFloat.nan := by
  have hdt : deltaT1 c1Inputs = deltaT2 c1Inputs := by
    norm_num [deltaT1, deltaT2, tHotIn, tHotOut, tColdIn, tColdOut, c1Inputs, exInputs]
  have hok : size c1Inputs exProps exCpWater =
      Except.ok (sizeResult c1Inputs exProps exCpWater) := by
    apply size_ok_of_pos
    · norm_num [exProps]
    · norm_num [c1Inputs, exInputs]
    · norm_num [c1Inputs, exInputs]
    · norm_num [exProps]
    · norm_num [exProps]
    · norm_num [exProps]
    · norm_num [massFlowH, flowM3s, c1Inputs, exInputs, exProps]
    · norm_num [c1Inputs, exInputs]
    · norm_num [cwDenom, tColdOut, tColdIn, c1Inputs, exInputs, exCpWater]
    · norm_num [deltaT2, tHotOut, tColdIn, c1Inputs, exInputs]
  refine ⟨hdt, sizeResult c1Inputs exProps exCpWater, hok, ?_⟩
  show aRequired c1Inputs exProps = PyFloat.nan
  have hl : lmtd c1Inputs = PyFloat.nan := by
    unfold lmtd
    rw [if_pos]
    exact Or.inr (by
      norm_num [deltaT1, deltaT2, tHotIn, tHotOut, tColdIn, tColdOut, c1Inputs, exInputs])
  unfold aRequired
  rw [hl]

/-- A physically inconsistent input: the hydrogen heats up from 40 to
80 C while the cooling water goes from 20 to 30 C. -/
noncomputable def negInputs : ProcessInputs :=
  { exInputs with T_hot_in_C := 40, T_hot_out_C := 80,
                  T_cold_in_C := 20, T_cold_out_C := 30 }

/-- C9: there is an input with hot outlet temperature above hot inlet
temperature on which the sizing computation completes without any error
and returns a strictly negative heat duty and a strictly negative required
area. -/
theorem negative_duty_accepted :
    negInputs.T_hot_in_C < negInputs.T_hot_out_C ∧
    ∃ r, size negInputs exProps exCpWater = Except.ok r ∧ r.Q < 0 ∧
      ∃ a, r.A_required = PyFloat.fin a ∧ a < 0 := by
  have hd1 : deltaT1 negInputs = 10 := by
    norm_num [deltaT1, tHotIn, tColdOut, negInputs, exInputs]
  have hd2 : deltaT2 negInputs = 60 := by
    norm_num [deltaT2, tHotOut, tColdIn, negInputs, exInputs]
  have hQ : heatDutyQ negInputs exProps < 0 := by
    norm_num [heatDutyQ, massFlowH, flowM3s, tHotIn, tHotOut, negInputs, exInputs, exProps]
  have hok : size negInputs exProps exCpWater =
      Except.ok (sizeResult negInputs exProps exCpWater) := by
    apply size_ok_of_pos
    · norm_num [exProps]
    · norm_num [negInputs, exInputs]
    · norm_num [negInputs, exInputs]
    · norm_num [exProps]
    · norm_num [exProps]
    · norm_num [exProps]
    · norm_num [massFlowH, flowM3s, negInputs, exInputs, exProps]
    · norm_num [negInputs, exInputs]
    · norm_num [cwDenom, tColdOut, tColdIn, negInputs, exInputs, exCpWater]
    · rw [hd2]; norm_num
  have ha : ¬(deltaT1 negInputs / deltaT2 negInputs < 0 ∨
      deltaT1 negInputs / deltaT2 negInputs = 1) := by
    rw [hd1, hd2]; norm_num
  have hb : ¬(deltaT1 negInputs / deltaT2 negInputs = 0) := by
    rw [hd1, hd2]; norm_num
  have hl : lmtd negInputs = PyFloat.fin
      ((deltaT1 negInputs - deltaT2 negInputs) /
        Real.log (deltaT1 negInputs / deltaT2 negInputs)) := by
    unfold lmtd
    rw [if_neg ha, if_neg hb]
  have hlog : Real.log (deltaT1 negInputs / deltaT2 negInputs) < 0 := by
    rw [hd1, hd2, show (10 : ℝ) / 60 = 1 / 6 by norm_num]
    exact Real.log_neg (by norm_num) (by norm_num)
  have hlval : 0 < (deltaT1 negInputs - deltaT2 negInputs) /
      Real.log (deltaT1 negInputs / deltaT2 negInputs) := by
    apply div_pos_iff.mpr
    exact Or.inr ⟨by rw [hd1, hd2]; norm_num, hlog⟩
  have hU : 0 < Uval negInputs exProps := by
    apply Uval_pos
    · norm_num [massFlowH, flowM3s, negInputs, exInputs, exProps]
    · norm_num [exProps]
    · norm_num [negInputs, exInputs]
    · norm_num [negInputs, exInputs]
    · norm_num [exProps]
    · norm_num [exProps]
    · norm_num [exProps]
    · norm_num [negInputs, exInputs]
  have hF : corrF negInputs.passes = 0.85 := by
    norm_num [corrF, negInputs, exInputs]
  have hUF : 0 < Uval negInputs exProps * corrF negInputs.passes *
      ((deltaT1 negInputs - deltaT2 negInputs) /
        Real.log (deltaT1 negInputs / deltaT2 negInputs)) :=
    mul_pos (mul_pos hU (by rw [hF]; norm_num)) hlval
  have hA : aRequired negInputs exProps = PyFloat.fin
      (heatDutyQ negInputs exProps /
        (Uval negInputs exProps * corrF negInputs.passes *
          ((deltaT1 negInputs - deltaT2 negInputs) /
            Real.log (deltaT1 negInputs / deltaT2 negInputs)))) := by
    unfold aRequired
    rw [hl]
    dsimp only
    rw [if_neg hUF.ne']
  refine ⟨by norm_num [negInputs, exInputs], sizeResult negInputs exProps exCpWater,
    hok, hQ, ?_⟩
  refine ⟨_, hA, ?_⟩
  exact div_neg_of_neg_of_pos hQ hUF

/-- The default input with the hydrogen flow set to zero. -/
noncomputable def zeroFlowInputs : ProcessInputs :=
  { exInputs with flow_hot_nm3_hr := 0 }

/-- C10: with zero hydrogen flow (and positive density, target velocity
and a nonzero bore) the tubes-per-pass count is 0, so the velocity
division of line 144 divides by zero; the exception is caught by the
top-level handler and the run produces an error instead of a result. -/
theorem zero_flow_errors (i : ProcessInputs) (p : FluidProps) (cw : ℝ)
    (hflow : i.flow_hot_nm3_hr = 0) (hrho : 0 < p.rho)
    (hvt : 0 < i.velocity_target) (hD : i.D_i ≠ 0) :
    tubesPerPass i p = 0 ∧ size i p cw = Except.error CalcError.zeroDivision := by
  have hm : massFlowH i p = 0 := by
    unfold massFlowH flowM3s
    rw [hflow]
    ring
  have hN : tubesPerPass i p = 0 := by
    unfold tubesPerPass rawTubes
    rw [hm, zero_div, Int.ceil_zero]
  refine ⟨hN, ?_⟩
  unfold size
  by_cases h1 : i.auto_water = true ∧ cwDenom i cw = 0
  · rw [if_pos h1]
  · rw [if_neg h1]
    have hA : 0 < A_single i := by
      unfold A_single
      have hD2 : 0 < i.D_i ^ 2 := by positivity
      exact div_pos (mul_pos Real.pi_pos hD2) (by norm_num)
    rw [if_neg (mul_pos (mul_pos hrho hvt) hA).ne']
    rw [if_pos (by rw [hN]; norm_num)]

/-- Witness for C10 at the default input with zero flow. -/
theorem zero_flow_errors_witness :
    zeroFlowInputs.flow_hot_nm3_hr = 0 ∧ 0 < exProps.rho ∧
    0 < zeroFlowInputs.velocity_target ∧ zeroFlowInputs.D_i ≠ 0 ∧
    (tubesPerPass zeroFlowInputs exProps = 0 ∧
      size zeroFlowInputs exProps exCpWater = Except.error CalcError.zeroDivision) :=
  ⟨rfl, by norm_num [exProps], by norm_num [zeroFlowInputs, exInputs],
    by norm_num [zeroFlowInputs, exInputs],
    zero_flow_errors zeroFlowInputs exProps exCpWater rfl
      (by norm_num [exProps]) (by norm_num [zeroFlowInputs, exInputs])
      (by norm_num [zeroFlowInputs, exInputs])⟩

/-- The quantities a presentation row can draw from: the hydrogen flow
input of `ProcessInputs` and the seven fields of `SizingResult`. -/
inductive Quantity where
  | flowInput
  | heatDuty
  | coolingWaterFlow
  | overallU
  | requiredArea
  | totalTubes
  | shellDiameter
  | tubeVelocity
deriving DecidableEq

/-- The on-screen result display, lines 177-183 of `src/app.py`: one
`st.write` line per quantity, in source order, with the label text each
line prints before its formatted value. -/
def screenRows : List (String × Quantity) :=
  [("Heat Duty", Quantity.heatDuty),
   ("Cooling Water Flow", Quantity.coolingWaterFlow),
   ("Overall U", Quantity.overallU),
   ("Required Area", Quantity.requiredArea),
   ("Total Tubes", Quantity.totalTubes),
   ("Shell Diameter", Quantity.shellDiameter),
   ("Tube Velocity", Quantity.tubeVelocity)]

/-- The `table_data` rows handed to the PDF table at lines 197-206 of
`src/app.py` (without the constant header row
`["Parameter", "Value"]`), each with the quantity its value cell is
formatted from. -/
def pdfRows : List (String × Quantity) :=
  [("Hydrogen Flow (Nm3/hr)", Quantity.flowInput),
   ("Heat Duty (kW)", Quantity.heatDuty),
   ("Cooling Water Flow (kg/s)", Quantity.coolingWaterFlow),
   ("Overall U (W/m2-K)", Quantity.overallU),
   ("Required Area (m2)", Quantity.requiredArea),
   ("Total Tubes", Quantity.totalTubes),
   ("Shell Diameter (m)", Quantity.shellDiameter)]

/-- C7 counterexample: the tube velocity is one of the seven on-screen
result quantities but has no row in the PDF table, so the PDF does not
contain the same seven fields as the display. -/
theorem pdf_missing_tube_velocity :
    Quantity.tubeVelocity ∈ screenRows.map Prod.snd ∧
    Quantity.tubeVelocity ∉ pdfRows.map Prod.snd := by
  decide

/-- C7 amended: the PDF table consists of the hydrogen flow input followed
by the on-screen result quantities in display order with tube velocity
removed — six of the seven `SizingResult` fields. -/
theorem pdf_rows_amended :
    pdfRows.map Prod.snd =
      Quantity.flowInput :: (screenRows.map Prod.snd).erase Quantity.tubeVelocity := by
  decide

/-- One record of the feedback log, the three columns written at
lines 262-266 of `src/app.py`. -/
structure FeedbackRow where
  timestamp : String
  name : String
  feedback : String
deriving DecidableEq

/-- The Submit Feedback handler, lines 260-276 of `src/app.py`: the file
state is `none` when `feedback.csv` does not exist and `some rows`
otherwise.  Python's `if name and feedback_text:` appends only when both
strings are non-empty (an empty string is falsy); the first write creates
the file with a header, later writes append without one, so at the row
level both cases append one row. -/
def submitFeedback (file : Option (List FeedbackRow)) (ts nm fb : String) :
    Option (List FeedbackRow) :=
  if nm ≠ "" ∧ fb ≠ "" then
    match file with
    | some rows => some (rows ++ [⟨ts, nm, fb⟩])
    | none => some [⟨ts, nm, fb⟩]
  else file

/-- The read-back at lines 278-281 of `src/app.py`: when `feedback.csv`
exists, the whole file is read and displayed; otherwise nothing is
shown. -/
def displayedFeedback (file : Option (List FeedbackRow)) : Option (List FeedbackRow) :=
  match file with
  | some rows => some rows
  | none => none

/-- C8 counterexample: a press of Submit Feedback with an empty name (and
non-empty feedback) appends nothing — starting from no file, the file
still does not exist afterwards. -/
theorem feedback_empty_not_appended :
    submitFeedback none "2025-10-12 10:00:00" "" "Nice tool" = none := by
  decide

/-- C8 amended: on every feedback submission with non-empty name and
non-empty feedback, the row (Timestamp, Name, Feedback) is appended to
`feedback.csv` (created if absent), and afterwards the file's full
contents are displayed; submissions with an empty name or empty feedback
leave the file unchanged. -/
theorem feedback_append_amended (file : Option (List FeedbackRow)) (ts nm fb : String)
    (hn : nm ≠ "") (hf : fb ≠ "") :
    submitFeedback file ts nm fb = some (file.getD [] ++ [⟨ts, nm, fb⟩]) ∧
    displayedFeedback (submitFeedback file ts nm fb) =
      some (file.getD [] ++ [⟨ts, nm, fb⟩]) := by
  have h : submitFeedback file ts nm fb = some (file.getD [] ++ [⟨ts, nm, fb⟩]) := by
    unfold submitFeedback
    rw [if_pos ⟨hn, hf⟩]
    cases file <;> simp
  exact ⟨h, by rw [h]; rfl⟩

/-- Witness for the amended C8 at a concrete submission. -/
theorem feedback_append_amended_witness :
    ("Alice" : String) ≠ "" ∧ ("Nice tool" : String) ≠ "" ∧
    (submitFeedback none "2025-10-12 10:00:00" "Alice" "Nice tool" =
        some ((none : Option (List FeedbackRow)).getD [] ++
          [⟨"2025-10-12 10:00:00", "Alice", "Nice tool"⟩]) ∧
      displayedFeedback (submitFeedback none "2025-10-12 10:00:00" "Alice" "Nice tool") =
        some ((none : Option (List FeedbackRow)).getD [] ++
          [⟨"2025-10-12 10:00:00", "Alice", "Nice tool"⟩])) :=
  ⟨by decide, by decide,
    feedback_append_amended none "2025-10-12 10:00:00" "Alice" "Nice tool"
      (by decide) (by decide)⟩

end HGCooler
